import Mathlib

/-!
Verification of the GlassForge terminal core: the natural-language command
classifier (`analyzeNaturalLanguageCommand`) and command dispatcher
(`handleCommandSubmit`) of the TerminalView component, the base64 audio codec
helpers (`encode` / `decode` of geminiService), and the snapshot upsert of
`LocalStorageSnapshotService.saveSnapshot`.

The embedding is a direct translation of the TypeScript source:
* the model's JSON reply and the outcome of the completion call are an
  explicit oracle value (`NLUResponse`), since they are external inputs;
* React state (`terminalOutput`, `currentUserProfile`, `liveSessionActive`)
  is threaded explicitly as `DispatchState`;
* calls to external collaborators (startLiveSession, generateContent,
  onSelectApiKey, the Looking Glass panel, the snapshot context, and the
  re-entrant `handleCommandSubmit` invocations) are recorded in
  `DispatchEffects`;
* `Date.now()` / `toLocaleTimeString()` is a `now : String` parameter.
-/

/-- A JSON value sitting in the model reply's `parameters` record: the
dispatcher only ever branches on whether a parameter is a string
(`typeof p === 'string'`), so non-string values are collapsed into `other`. -/
inductive JVal where
  | str (s : String)
  | other
deriving DecidableEq, Repr

/-- The `NLUOutput` interface of TerminalView: the parsed shape of the
model's JSON reply. `parameters` is an untrusted record, hence an optional
association list of `JVal`. -/
structure NLUOutput where
  intent : String
  parameters : Option (List (String × JVal)) := none
  nuance : Option String := none
  clarificationNeeded : Bool := false
  clarificationMessage : Option String := none
  commandType : String
deriving DecidableEq, Repr

/-- `out.parameters?.key` when it is a string (`typeof === 'string'`),
otherwise `none`. -/
def getStrParam (out : NLUOutput) (key : String) : Option String :=
  match out.parameters with
  | none => none
  | some ps =>
    match ps.lookup key with
    | some (JVal.str s) => some s
    | _ => none

/-- The `validConceptualCommands` allow-list of `analyzeNaturalLanguageCommand`. -/
def validConceptualCommands : List String :=
  ["foxmeditation", "sovereignbrain", "autoclean", "loom_optimize",
   "claudenotes", "swarmanalytics", "swarmpilot", "jailbreak_protocol",
   "nlu_status", "newidea_init_prompt", "refactor_code"]

/-- The `validSnapshotActions` allow-list of `analyzeNaturalLanguageCommand`. -/
def validSnapshotActions : List String :=
  ["take_snapshot", "restore_snapshot_list"]

/-- The result returned when `!isGeminiActive || !genAI`. -/
def systemErrorOutput : NLUOutput :=
  { intent := "System Error"
    parameters := some [("message", JVal.str "Gemini API is inactive. NLU unavailable.")]
    commandType := "unknown" }

/-- The `ask_ai` replacement used when a hallucinated script name or snapshot
action fails the allow-list check. -/
def askAiFallback (rawCommand : String) : NLUOutput :=
  { intent := "ask_ai"
    parameters := some [("query", JVal.str rawCommand)]
    nuance := some "general"
    commandType := "ai_generate" }

/-- The fallback built in the catch block of `analyzeNaturalLanguageCommand`
when the completion call throws or `JSON.parse` fails. -/
def askAiErrorFallback (rawCommand errMsg : String) : NLUOutput :=
  { intent := "ask_ai"
    parameters := some [("query", JVal.str rawCommand)]
    nuance := some "general"
    commandType := "ai_generate"
    clarificationNeeded := true
    clarificationMessage :=
      some ("NLU failed to parse command. Please rephrase or use 'help'. Error: " ++ errMsg) }

/-- The outcome of the classifier's single completion call, as an oracle
value: the call threw, it returned text that `JSON.parse` rejects, or it
returned text parsing to some `NLUOutput`. -/
inductive NLUResponse where
  | throws (errMsg : String)
  | unparseable (errMsg : String)
  | parsed (output : NLUOutput)
deriving DecidableEq, Repr

/-- JavaScript `String.prototype.toLowerCase` (spelled out over the char
list so the kernel can evaluate it; `Char.toLower` matches it on the ASCII
range the allow-lists live in). -/
def jsToLower (s : String) : String :=
  String.mk (s.toList.map Char.toLower)

/-- The allow-list validation of the successfully parsed reply (the body of
the `try` block after `JSON.parse`). -/
def validateNLUOutput (nluOutput : NLUOutput) (rawCommand : String) : NLUOutput :=
  if nluOutput.intent = "trigger_conceptual_backend" then
    match getStrParam nluOutput "script_name" with
    | some scriptName =>
      if validConceptualCommands.contains (jsToLower scriptName) then nluOutput
      else askAiFallback rawCommand
    | none => nluOutput
  else if nluOutput.intent = "trigger_snapshot_action" then
    match getStrParam nluOutput "action" with
    | some action =>
      if validSnapshotActions.contains (jsToLower action) then nluOutput
      else askAiFallback rawCommand
    | none => nluOutput
  else nluOutput

/-- `analyzeNaturalLanguageCommand` of TerminalView. `isGeminiActive`
collapses `isGeminiActive && genAI`; `response` is the outcome of the
completion call. A total function: every path returns an `NLUOutput`. -/
def analyzeNaturalLanguageCommand (isGeminiActive : Bool) (response : NLUResponse)
    (rawCommand : String) : NLUOutput :=
  if !isGeminiActive then systemErrorOutput
  else
    match response with
    | NLUResponse.throws e => askAiErrorFallback rawCommand e
    | NLUResponse.unparseable e => askAiErrorFallback rawCommand e
    | NLUResponse.parsed nluOutput => validateNLUOutput nluOutput rawCommand

/-- The `ChatMessage` interface of types.ts. -/
structure ChatMessage where
  id : String
  sender : String
  text : String
  timestamp : String
  isBot : Bool
  type : String
deriving DecidableEq, Repr

/-- `addOutput`: append one message to the terminal output. -/
def addOutput (terminalOutput : List ChatMessage) (message : ChatMessage) : List ChatMessage :=
  terminalOutput ++ [message]

/-- The synthetic system message appended by `clearTerminal`. -/
def clearedMessage (now : String) : ChatMessage :=
  { id := "system-" ++ now
    sender := "SYSTEM"
    text := "Terminal cleared."
    timestamp := now
    isBot := true
    type := "system-message" }

/-- `clearTerminal`: `setTerminalOutput([])` followed by `addOutput` of the
"Terminal cleared." system message. -/
def clearTerminal (now : String) (_terminalOutput : List ChatMessage) : List ChatMessage :=
  addOutput [] (clearedMessage now)

/-- The `UserProfile` interface of types.ts. -/
structure UserProfile where
  id : String
  name : String
  avatar : String
  description : String
deriving DecidableEq, Repr

/-- The fixed `USER_PROFILES` set of constants.ts. -/
def USER_PROFILES : List UserProfile :=
  [ { id := "mike_talbert"
      name := "Mike Talbert"
      avatar := "👨‍💻"
      description := "The Architect and Visionary behind GlassForge, currently operating under harsh conditions." }
  , { id := "bleak"
      name := "Bleak Narratives"
      avatar := "🦊"
      description := "A deep-dive analyst and content strategist, focused on the narrative and data streams." }
  , { id := "syntax_ai_agent"
      name := "Syntax AI"
      avatar := "🤖"
      description := "Autonomous code optimizer and system maintenance agent." } ]


/-- The React state of TerminalView that the dispatcher reads or writes. -/
structure DispatchState where
  terminalOutput : List ChatMessage
  currentUserProfile : UserProfile
  liveSessionActive : Bool
deriving DecidableEq, Repr

/-- Calls the dispatcher makes to external collaborators during one cycle.
`spawnedCommands` records the re-entrant `handleCommandSubmit` invocations
(`none` stands for the JS call `handleCommandSubmit(undefined)` made when the
`play_fox_hunt` action parameter is absent). -/
structure DispatchEffects where
  startLiveCalls : Nat := 0
  closeLiveCalls : Nat := 0
  generateCalls : Nat := 0
  selectApiKeyCalls : Nat := 0
  lookingGlassTitles : List String := []
  snapshotsTaken : List String := []
  snapshotListShown : Nat := 0
  spawnedCommands : List (Option String) := []
deriving DecidableEq, Repr

/-- No collaborator called. -/
def noEffects : DispatchEffects := {}

/-- The environment of one dispatch cycle: the API-active flag, the
time/id surrogate for `Date.now()` and `toLocaleTimeString()`, and the
outcome of any `generateContent` or live-session start the cycle makes. -/
structure DispatchEnv where
  isGeminiActive : Bool
  now : String
  generateResult : Except String String
  liveStartResult : Except String Unit

/-- A `ChatMessage` built the way the dispatcher builds them: the id is a
branch-specific tag followed by `Date.now()`. -/
def mkMessage (idTag sender text now : String) (isBot : Bool) (type : String) : ChatMessage :=
  { id := idTag ++ now
    sender := sender
    text := text
    timestamp := now
    isBot := isBot
    type := type }

/-- A SYSTEM message built by the dispatcher. -/
def sysMsg (idTag text now kind : String) : ChatMessage :=
  mkMessage idTag "SYSTEM" text now true kind

/-- `addOutput` lifted to the dispatcher state. -/
def appendMsg (st : DispatchState) (m : ChatMessage) : DispatchState :=
  { st with terminalOutput := addOutput st.terminalOutput m }

/-- JavaScript `String.prototype.trim`: strip whitespace from both ends
(spelled out structurally so the kernel can evaluate it). -/
def jsTrim (s : String) : String :=
  String.mk (((s.toList.dropWhile Char.isWhitespace).reverse.dropWhile Char.isWhitespace).reverse)

/-- JavaScript `String.replace` with a string pattern replaces only the first
occurrence; Lean's `String.replace` replaces all, so the first-only variant
is spelled out via `splitOn`. -/
def replaceFirst (s pat repl : String) : String :=
  match s.splitOn pat with
  | [] => s
  | [only] => only
  | first :: second :: rest => first ++ repl ++ String.intercalate pat (second :: rest)

/-- The help text of the `help` branch (the source joins these lines with
`+`; the missing newline before the keyboard-shortcuts line is the
source's). -/
def helpText : String :=
  "Available commands (via Forge Ring or direct input):\n" ++
  "- `clear`: Clears terminal output.\n" ++
  "- `help`: Shows this help message.\n" ++
  "- `profile <id>`: Switch user profile (e.g., `profile bleak`).\n" ++
  "- `nlu_status`: Open the NLU status report.\n" ++
  "- `foxmeditation`: Conceptual: generate FoxMeditation app.\n" ++
  "- `sovereignbrain`: Conceptual: bridge intel to leads.\n" ++
  "- `autoclean`: Conceptual: clean codebase duplicates/syntax.\n" ++
  "- `loom_optimize`: Conceptual: open Loom Data Optimization status.\n" ++
  "- `claudenotes`: Open Claude's Dev Notes.\n" ++
  "- `swarmanalytics`: Open Swarm Analytics Dashboard.\n" ++
  "- `swarmpilot`: Open Swarm Piloting Guide.\n" ++
  "- `newidea`: Get help on how to input new idea for AI analysis.\n" ++
  "- `refactor_code`: Get AI-driven refactoring suggestions for current code context.\n" ++
  "- `takesnapshot <description>`: Save current app state for later restore.\n" ++
  "- `restoresnapshots`: View and restore previous app states.\n" ++
  "- `startlive`: Start AI live audio conversation.\n" ++
  "- `endlive`: End AI live audio conversation.\n" ++
  "- `jailbreak_protocol`: Initiate the Easter egg sequence." ++
  "- Keyboard shortcuts: Ctrl+L (Clear), Ctrl+K (Toggle Looking Glass), Ctrl+M (Mute/Unmute), Esc (Close Menus)."

/-- `handleAIGeneralQuery`: precondition check, status message, completion
call, AI reply or error message. -/
def handleAIGeneralQuery (env : DispatchEnv) (st : DispatchState)
    (query : String) (nuance : Option String) : DispatchState × DispatchEffects :=
  if !env.isGeminiActive then
    (appendMsg st (sysMsg "err-" "Gemini API is inactive. Cannot process AI queries without AI. Please select an API key." env.now "error"),
     { noEffects with selectApiKeyCalls := 1 })
  else
    let subText := "Processing AI query: \"" ++ query ++ "\" (Nuance: " ++ nuance.getD "none" ++ ")..."
    let st1 := appendMsg st (sysMsg "ai-query-sub-" subText env.now "system-message")
    match env.generateResult with
    | Except.ok aiResponse =>
      (appendMsg st1 (mkMessage "ai-query-res-" "AI" aiResponse env.now true "ai-response"),
       { noEffects with generateCalls := 1 })
    | Except.error e =>
      (appendMsg st1 (sysMsg "ai-query-err-" ("Error processing AI query: " ++ e) env.now "error"),
       { noEffects with generateCalls := 1 })

/-- `handleNewIdea`: like the general query, but the analysis opens in the
Looking Glass. -/
def handleNewIdea (env : DispatchEnv) (st : DispatchState)
    (ideaDescription : String) (nuance : Option String) : DispatchState × DispatchEffects :=
  if !env.isGeminiActive then
    (appendMsg st (sysMsg "err-" "Gemini API is inactive. Cannot process new ideas without AI. Please select an API key." env.now "error"),
     { noEffects with selectApiKeyCalls := 1 })
  else
    let subText := "Processing new idea: \"" ++ ideaDescription ++ "\" for " ++ st.currentUserProfile.name
      ++ " (" ++ st.currentUserProfile.avatar ++ ") (Nuance: " ++ nuance.getD "none" ++ ")..."
    let st1 := appendMsg st (sysMsg "idea-sub-" subText env.now "system-message")
    match env.generateResult with
    | Except.ok _ =>
      let resText := "Analysis for \"" ++ ideaDescription ++ "\" complete. See Looking Glass for details. Conceptual Loom integration for idea lifecycle tracking active."
      (appendMsg st1 (mkMessage "idea-res-" "AI" resText env.now true "ai-response"),
       { noEffects with generateCalls := 1, lookingGlassTitles := ["Business Idea Analysis: " ++ ideaDescription.take 30 ++ "..."] })
    | Except.error e =>
      (appendMsg st1 (sysMsg "idea-err-" ("Error analyzing idea: " ++ e) env.now "error"),
       { noEffects with generateCalls := 1 })

/-- `handleRefactorCode`: simulated refactoring of pain_engine.py. -/
def handleRefactorCode (env : DispatchEnv) (st : DispatchState) : DispatchState × DispatchEffects :=
  if !env.isGeminiActive then
    (appendMsg st (sysMsg "err-" "Gemini API is inactive. Cannot provide refactoring suggestions without AI. Please select an API key." env.now "error"),
     { noEffects with selectApiKeyCalls := 1 })
  else
    let st1 := appendMsg st (sysMsg "refactor-sub-" "AI Agent 'Syntax AI' analyzing code for refactoring opportunities..." env.now "system-message")
    match env.generateResult with
    | Except.ok _ =>
      (appendMsg st1 (mkMessage "refactor-res-" "AI" "Refactoring analysis for 'pain_engine.py' complete. See Looking Glass for suggestions." env.now true "ai-response"),
       { noEffects with generateCalls := 1, lookingGlassTitles := ["Code Refactoring: pain_engine.py"] })
    | Except.error e =>
      (appendMsg st1 (sysMsg "refactor-err-" ("Error during refactoring analysis: " ++ e) env.now "error"),
       { noEffects with generateCalls := 1 })

/-- `handleFoxMeditation`: conceptual message plus Looking Glass panel. -/
def handleFoxMeditation (env : DispatchEnv) (st : DispatchState) : DispatchState × DispatchEffects :=
  let text := "CONCEPTUAL: Initiating Fox Meditation App generation (via Kimi.ai - see backend `fox_meditation.js`).\n"
    ++ st.currentUserProfile.name ++ " (" ++ st.currentUserProfile.avatar ++ ") is generating the app."
  (appendMsg st (sysMsg "foxmed-" text env.now "system-message"),
   { noEffects with lookingGlassTitles := ["Fox Meditation App Gen"] })

/-- `handleSovereignBrain`. -/
def handleSovereignBrain (env : DispatchEnv) (st : DispatchState) : DispatchState × DispatchEffects :=
  let text := "CONCEPTUAL: Bridging ModMind intel to Pytch leads (see backend `sovereign_brain_bridge.py`).\n"
    ++ st.currentUserProfile.name ++ " (" ++ st.currentUserProfile.avatar
    ++ ") is orchestrating the intel bridge. Loom integration active for data tracking."
  (appendMsg st (sysMsg "sovereign-" text env.now "system-message"),
   { noEffects with lookingGlassTitles := ["Sovereign Brain Bridge"] })

/-- `handleAutoClean`. -/
def handleAutoClean (env : DispatchEnv) (st : DispatchState) : DispatchState × DispatchEffects :=
  let text := "CONCEPTUAL: Initiating codebase auto-clean (see backend `autoclean.py`).\n"
    ++ st.currentUserProfile.name ++ " (" ++ st.currentUserProfile.avatar
    ++ ") is supervising syntax optimization. Optimized for massive data compression and Loom integration."
  (appendMsg st (sysMsg "autoclean-" text env.now "system-message"),
   { noEffects with lookingGlassTitles := ["AutoClean Utility"] })

/-- `handleLoomDataOptimization`: Looking Glass panel, then the status
message. -/
def handleLoomDataOptimization (env : DispatchEnv) (st : DispatchState) : DispatchState × DispatchEffects :=
  (appendMsg st (sysMsg "loom_opt-" "CONCEPTUAL: Loom Data Optimization status opened." env.now "system-message"),
   { noEffects with lookingGlassTitles := ["Loom Data Optimization"] })

/-- `handleSwarmAnalytics`: Looking Glass panel only. -/
def handleSwarmAnalytics (st : DispatchState) : DispatchState × DispatchEffects :=
  (st, { noEffects with lookingGlassTitles := ["Swarm Analytics: Data Flow"] })

/-- `handleSwarmPilot`: Looking Glass panel only. -/
def handleSwarmPilot (st : DispatchState) : DispatchState × DispatchEffects :=
  (st, { noEffects with lookingGlassTitles := ["Swarm Piloting Guide"] })

/-- `handleNLUStatus`: Looking Glass panel only. -/
def handleNLUStatus (st : DispatchState) : DispatchState × DispatchEffects :=
  (st, { noEffects with lookingGlassTitles := ["NLU Engine Status"] })

/-- `startLiveConversation`: precondition check, then the collaborator
start. The session start and the microphone start are folded into one
oracle outcome `env.liveStartResult`; on success the two progress messages
are appended and the session-active flag ends up true, on a thrown error the
flag is reset and the failure message appended. -/
def startLiveConversation (env : DispatchEnv) (st : DispatchState) : DispatchState × DispatchEffects :=
  if !env.isGeminiActive then
    (appendMsg st (sysMsg "err-" "Gemini API is inactive. Cannot start live audio. Please select an API key." env.now "error"),
     { noEffects with selectApiKeyCalls := 1 })
  else
    match env.liveStartResult with
    | Except.ok _ =>
      let st1 := appendMsg st (sysMsg "mic-start-" "Microphone input started for live session." env.now "system-message")
      let st2 := appendMsg st1 (sysMsg "live-start-" "Live audio conversation started. You can now speak." env.now "system-message")
      ({ st2 with liveSessionActive := true }, { noEffects with startLiveCalls := 1 })
    | Except.error e =>
      let st1 := appendMsg st (sysMsg "live-fail-" ("Failed to start live conversation: " ++ e ++ ".") env.now "error")
      ({ st1 with liveSessionActive := false }, { noEffects with startLiveCalls := 1 })

/-- `endLiveConversation`: close the session, stop the microphone (which
appends its message), reset the flags. -/
def endLiveConversation (env : DispatchEnv) (st : DispatchState) : DispatchState × DispatchEffects :=
  let st1 := appendMsg st (sysMsg "mic-stop-" "Microphone input stopped." env.now "system-message")
  ({ st1 with liveSessionActive := false }, { noEffects with closeLiveCalls := 1 })

/-- The `switch`-statement body of `handleCommandSubmit` (run only when
`clarificationNeeded` is not set). The branches follow the source's case
order; `'unknown'` and the default case share one block. -/
def dispatchIntent (env : DispatchEnv) (st : DispatchState) (nluResult : NLUOutput)
    (rawCommand : String) : DispatchState × DispatchEffects :=
  if nluResult.intent = "clear" then
    ({ st with terminalOutput := clearTerminal env.now st.terminalOutput }, noEffects)
  else if nluResult.intent = "help" then
    (appendMsg st (sysMsg "help-" helpText env.now "system-message"), noEffects)
  else if nluResult.intent = "newidea_init_prompt" then
    (appendMsg st (sysMsg "newidea-prompt-" "Please type your new idea for AI analysis. Use the format: `new idea: <description>`." env.now "system-message"), noEffects)
  else if nluResult.intent = "trigger_snapshot_action" then
    let snapshotAction := getStrParam nluResult "action"
    if snapshotAction = some "take_snapshot" then
      let description := jsTrim (replaceFirst rawCommand "take snapshot" "")
      if description ≠ "" then
        (appendMsg st (sysMsg "snapshot-taken-" ("Snapshot '" ++ description ++ "' queued for saving.") env.now "system-message"),
         { noEffects with snapshotsTaken := [description] })
      else
        (appendMsg st (sysMsg "snapshot-fail-" "Error: Please provide a description for the snapshot. E.g., `take snapshot initial setup`" env.now "error"), noEffects)
    else if snapshotAction = some "restore_snapshot_list" then
      (appendMsg st (sysMsg "snapshot-list-" "Displaying available snapshots in Looking Glass." env.now "system-message"),
       { noEffects with snapshotListShown := 1 })
    else
      (st, noEffects)
  else if nluResult.intent = "switch_profile" then
    let profileId := getStrParam nluResult "profile_id"
    match USER_PROFILES.find? (fun p => some p.id = profileId) with
    | some newProfile =>
      let st1 := appendMsg st (sysMsg "profile-switch-" ("User profile switched to: " ++ newProfile.name ++ " (" ++ newProfile.avatar ++ ").") env.now "system-message")
      ({ st1 with currentUserProfile := newProfile },
       { noEffects with lookingGlassTitles := ["User Profile: Active"] })
    | none =>
      let errText := "Error: Profile '" ++ profileId.getD "undefined" ++ "' not found. Available profiles: "
        ++ String.intercalate ", " (USER_PROFILES.map (fun (p : UserProfile) => p.id)) ++ "."
      (appendMsg st (sysMsg "profile-err-" errText env.now "error"), noEffects)
  else if nluResult.intent = "claudenotes" then
    (st, { noEffects with lookingGlassTitles := ["Claude's Development Notes"] })
  else if nluResult.intent = "swarmanalytics" then
    handleSwarmAnalytics st
  else if nluResult.intent = "swarmpilot" then
    handleSwarmPilot st
  else if nluResult.intent = "nlu_status" then
    handleNLUStatus st
  else if nluResult.intent = "generate_idea" then
    handleNewIdea env st ((getStrParam nluResult "description").getD "undefined") nluResult.nuance
  else if nluResult.intent = "ask_ai" then
    handleAIGeneralQuery env st ((getStrParam nluResult "query").getD "undefined") nluResult.nuance
  else if nluResult.intent = "trigger_conceptual_backend" then
    let scriptName := getStrParam nluResult "script_name"
    if scriptName = some "foxmeditation" then handleFoxMeditation env st
    else if scriptName = some "sovereignbrain" then handleSovereignBrain env st
    else if scriptName = some "autoclean" then handleAutoClean env st
    else if scriptName = some "loom_optimize" then handleLoomDataOptimization env st
    else if scriptName = some "claudenotes" then
      (st, { noEffects with lookingGlassTitles := ["Claude's Development Notes"] })
    else if scriptName = some "swarmanalytics" then handleSwarmAnalytics st
    else if scriptName = some "swarmpilot" then handleSwarmPilot st
    else if scriptName = some "refactor_code" then handleRefactorCode env st
    else if scriptName = some "jailbreak_protocol" then
      (st, { noEffects with spawnedCommands := [some "jailbreak_protocol"] })
    else if scriptName = some "nlu_status" then handleNLUStatus st
    else
      (appendMsg st (sysMsg "err-script-" ("Conceptual script '" ++ scriptName.getD "undefined" ++ "' not recognized or handled.") env.now "error"), noEffects)
  else if nluResult.intent = "start_live_session" then
    if st.liveSessionActive then
      (appendMsg st (sysMsg "err-" "Error: Live session already active. Use `endlive` to stop." env.now "error"), noEffects)
    else
      startLiveConversation env st
  else if nluResult.intent = "end_live_session" then
    if !st.liveSessionActive then
      (appendMsg st (sysMsg "err-" "Error: No live session active. Use `startlive` to begin." env.now "error"), noEffects)
    else
      endLiveConversation env st
  else if nluResult.intent = "play_fox_hunt" then
    (st, { noEffects with spawnedCommands := [getStrParam nluResult "action"] })
  else if nluResult.intent = "jailbreak_protocol" then
    (st, { noEffects with spawnedCommands := [some "jailbreak_protocol"] })
  else
    (appendMsg st (sysMsg "nlu-unknown-" ("NLU could not confidently determine intent for \"" ++ rawCommand ++ "\". Please try rephrasing or use 'help'.") env.now "nlu-clarification"), noEffects)

/-- The dispatch phase of `handleCommandSubmit`: the hard short-circuit on
`clarificationNeeded`, then the intent switch. -/
def dispatchNLU (env : DispatchEnv) (st : DispatchState) (nluResult : NLUOutput)
    (rawCommand : String) : DispatchState × DispatchEffects :=
  if nluResult.clarificationNeeded then
    (appendMsg st (sysMsg "clarify-" ("Clarification needed: " ++ nluResult.clarificationMessage.getD "Please provide more details.") env.now "nlu-clarification"), noEffects)
  else
    dispatchIntent env st nluResult rawCommand

/-- A fixed environment and state for the re-entry chain model: the chain
only exists when the API is active (classification requires it), and the
spawn decisions of `dispatchNLU` never read the state or the collaborator
outcomes. -/
def chainEnv : DispatchEnv :=
  { isGeminiActive := true
    now := "t"
    generateResult := Except.ok "ok"
    liveStartResult := Except.ok () }

/-- The initial TerminalView state: empty output, default profile
`USER_PROFILES[0]`, no live session. -/
def initialDispatchState : DispatchState :=
  { terminalOutput := []
    currentUserProfile :=
      { id := "mike_talbert"
        name := "Mike Talbert"
        avatar := "👨‍💻"
        description := "The Architect and Visionary behind GlassForge, currently operating under harsh conditions." }
    liveSessionActive := false }

/-- The re-entrant `handleCommandSubmit` invocations one classify→dispatch
cycle makes: classify `command` against the model outcome `response`, then
dispatch and read off the spawned commands. -/
def spawnOfCycle (response : NLUResponse) (command : String) : List (Option String) :=
  (dispatchNLU chainEnv initialDispatchState
    (analyzeNaturalLanguageCommand true response command) command).2.spawnedCommands

/-- One step of the re-entry chain: the command the cycle re-submits, if
any. A spawned `handleCommandSubmit(undefined)` (`none`) throws on
`rawCommand.trim()` and a blank command returns at once, so either ends the
chain. -/
def chainStep (response : NLUResponse) (command : String) : Option String :=
  match spawnOfCycle response command with
  | [some next] => if jsTrim next = "" then none else some next
  | _ => none

/-- The command still pending after `n` re-entry steps, the classifier's
reply to the `i`-th call being `oracle i`. `none` means the chain of
re-entrant dispatches has completed. -/
def chainPending (oracle : Nat → NLUResponse) (command : String) : Nat → Option String
  | 0 => if jsTrim command = "" then none else some command
  | n + 1 => (chainPending oracle command n).bind (chainStep (oracle n))

/-- A model reply classifying the command as the `jailbreak_protocol`
intent, as the NLU prompt instructs for the Easter-egg command. -/
def jailbreakOutput : NLUOutput :=
  { intent := "jailbreak_protocol"
    commandType := "conceptual" }

/-- The classifier reply sequence that always answers `jailbreak_protocol`. -/
def jailbreakOracle : Nat → NLUResponse := fun _ => NLUResponse.parsed jailbreakOutput

/-- Non-termination of the re-entry chain under `jailbreakOracle`: after
every number of steps the same command is still pending, so the chain of
re-entrant dispatches never runs to completion. -/
def jailbreakChainNeverCompletes : Prop :=
  ∀ n, chainPending jailbreakOracle "jailbreak_protocol" n = some "jailbreak_protocol"

/-- The `encode` / `decode` helpers of geminiService build on the browser
base64 primitives `btoa` / `atob`, modelled here by RFC 4648 base64 over
code points below 256 (the source's `String.fromCharCode` /
`charCodeAt` round-trip is the identity on that range). -/
def base64Chars : List Char :=
  "ABCDEFGHIJKLMNOPQRSTUVWXYZabcdefghijklmnopqrstuvwxyz0123456789+/".toList

/-- The base64 digit of a sextet. -/
def sextetToChar (n : Nat) : Char := base64Chars.getD n 'A'

/-- The sextet of a base64 digit. -/
def charToSextet (c : Char) : Nat := base64Chars.indexOf c

/-- `btoa` on the code points of the binary string: 3 bytes to 4 digits,
with `=` padding. -/
def btoaBytes : List Nat → List Char
  | [] => []
  | [b1] =>
    [sextetToChar (b1 / 4), sextetToChar (b1 % 4 * 16), '=', '=']
  | [b1, b2] =>
    [sextetToChar (b1 / 4), sextetToChar (b1 % 4 * 16 + b2 / 16),
     sextetToChar (b2 % 16 * 4), '=']
  | b1 :: b2 :: b3 :: rest =>
    sextetToChar (b1 / 4) :: sextetToChar (b1 % 4 * 16 + b2 / 16) ::
    sextetToChar (b2 % 16 * 4 + b3 / 64) :: sextetToChar (b3 % 64) ::
    btoaBytes rest

/-- `atob` to the code points of the binary string: 4 digits back to 3
bytes, honouring `=` padding. -/
def atobChars : List Char → List Nat
  | c1 :: c2 :: c3 :: c4 :: rest =>
    if c3 = '=' then
      [charToSextet c1 * 4 + charToSextet c2 / 16]
    else if c4 = '=' then
      [charToSextet c1 * 4 + charToSextet c2 / 16,
       charToSextet c2 % 16 * 16 + charToSextet c3 / 4]
    else
      (charToSextet c1 * 4 + charToSextet c2 / 16) ::
      (charToSextet c2 % 16 * 16 + charToSextet c3 / 4) ::
      (charToSextet c3 % 4 * 64 + charToSextet c4) ::
      atobChars rest
  | _ => []

/-- `encode(bytes)` of geminiService: build the binary string with
`String.fromCharCode` over the bytes, then `btoa`. -/
def encode (bytes : List Nat) : String :=
  String.mk (btoaBytes bytes)

/-- `decode(base64)` of geminiService: `atob`, then `charCodeAt` each
position into a byte array. -/
def decode (base64 : String) : List Nat :=
  atobChars base64.toList

/-- The `AppSnapshot` record (App.tsx): keyed by `id`; the app and terminal
state payloads are irrelevant to the store's list discipline and are kept
abstract as one field. -/
structure AppSnapshot where
  id : String
  timestamp : String
  description : String
  payload : String
deriving DecidableEq, Repr

/-- `LocalStorageSnapshotService.saveSnapshot` on the stored list: drop any
record with the same id, then push the new record. -/
def saveSnapshot (snapshots : List AppSnapshot) (snapshot : AppSnapshot) : List AppSnapshot :=
  snapshots.filter (fun s => s.id ≠ snapshot.id) ++ [snapshot]

/-- A hallucinated conceptual-backend classification. -/
def hallucinatedConceptual : NLUOutput :=
  { intent := "trigger_conceptual_backend"
    parameters := some [("script_name", JVal.str "HackTheMainframe")]
    commandType := "conceptual" }

/-- A hallucinated snapshot-action classification. -/
def hallucinatedSnapshot : NLUOutput :=
  { intent := "trigger_snapshot_action"
    parameters := some [("action", JVal.str "bogus")]
    commandType := "local" }

/-- The fixed closed set of intents the NLU prompt enumerates and the
dispatcher switches on. -/
def supportedIntents : List String :=
  ["generate_idea", "ask_ai", "clear", "help", "switch_profile",
   "trigger_conceptual_backend", "trigger_snapshot_action",
   "start_live_session", "end_live_session", "play_fox_hunt", "clarify",
   "newidea_init_prompt", "claudenotes", "swarmanalytics", "swarmpilot",
   "nlu_status", "jailbreak_protocol", "unknown"]

/-- A well-formed JSON reply whose intent is outside the supported set. -/
def bananaOutput : NLUOutput :=
  { intent := "summon_banana"
    commandType := "local" }

/-- A model reply flagged for clarification, shaped as the NLU prompt
instructs. -/
def clarifyOutput : NLUOutput :=
  { intent := "clarify"
    clarificationNeeded := true
    clarificationMessage := some "What exactly do you want to achieve?"
    commandType := "unknown" }

/-- A model reply classifying the command as `start_live_session`. -/
def startLiveOutput : NLUOutput :=
  { intent := "start_live_session"
    commandType := "ai_live" }

/-- A model reply classifying the command as `end_live_session`. -/
def endLiveOutput : NLUOutput :=
  { intent := "end_live_session"
    commandType := "ai_live" }

/-- A state with a live session already active. -/
def activeSessionState : DispatchState :=
  { initialDispatchState with liveSessionActive := true }

/-- A classification naming an unknown profile id. -/
def unknownProfileProbe : NLUOutput :=
  { intent := "switch_profile"
    parameters := some [("profile_id", JVal.str "unknown_id")]
    commandType := "local" }

/-- A classification naming the `bleak` profile. -/
def bleakProfileProbe : NLUOutput :=
  { intent := "switch_profile"
    parameters := some [("profile_id", JVal.str "bleak")]
    commandType := "local" }

/-- The `bleak` entry of `USER_PROFILES`. -/
def bleakProfile : UserProfile :=
  { id := "bleak"
    name := "Bleak Narratives"
    avatar := "🦊"
    description := "A deep-dive analyst and content strategist, focused on the narrative and data streams." }

/-- A model reply classifying the command as the local `clear` intent,
whose dispatch branch spawns nothing. -/
def clearOutput : NLUOutput :=
  { intent := "clear"
    commandType := "local" }

/-- The classifier reply sequence that always answers `clear`. -/
def clearOracle : Nat → NLUResponse := fun _ => NLUResponse.parsed clearOutput

/-- A stored snapshot with id "a". -/
def snapshotA : AppSnapshot :=
  { id := "a", timestamp := "t1", description := "first", payload := "p1" }

/-- A stored snapshot with id "b". -/
def snapshotB : AppSnapshot :=
  { id := "b", timestamp := "t2", description := "second", payload := "p2" }

/-- An update for id "a" with fresh contents. -/
def snapshotA2 : AppSnapshot :=
  { id := "a", timestamp := "t3", description := "first updated", payload := "p3" }

/-- C7: for every prior Display Sink contents (including the empty
sequence), `clearTerminal` results in a terminal output holding exactly one
synthetic SYSTEM message with text "Terminal cleared.". -/
theorem clear_terminal_single_message (now : String) (prev : List ChatMessage) :
    clearTerminal now prev = [clearedMessage now]
    ∧ (clearTerminal now prev).length = 1
    ∧ (clearedMessage now).sender = "SYSTEM"
    ∧ (clearedMessage now).text = "Terminal cleared."
    ∧ (clearedMessage now).type = "system-message" :=
  ⟨rfl, rfl, rfl, rfl, rfl⟩

/-- C1: whenever the completion call throws or the reply fails `JSON.parse`
(and the API is active, so the call is actually made),
`analyzeNaturalLanguageCommand` returns the `ask_ai` fallback carrying the
raw command as the query, `clarificationNeeded = true`, and a clarification
message embedding the error text; being a total function, it never raises
past its own boundary. -/
theorem classifier_failure_returns_fallback (rawCommand errMsg : String) :
    analyzeNaturalLanguageCommand true (NLUResponse.throws errMsg) rawCommand
      = askAiErrorFallback rawCommand errMsg
    ∧ analyzeNaturalLanguageCommand true (NLUResponse.unparseable errMsg) rawCommand
      = askAiErrorFallback rawCommand errMsg
    ∧ (askAiErrorFallback rawCommand errMsg).intent = "ask_ai"
    ∧ getStrParam (askAiErrorFallback rawCommand errMsg) "query" = some rawCommand
    ∧ (askAiErrorFallback rawCommand errMsg).clarificationNeeded = true
    ∧ (askAiErrorFallback rawCommand errMsg).clarificationMessage
      = some ("NLU failed to parse command. Please rephrase or use 'help'. Error: " ++ errMsg) :=
  ⟨rfl, rfl, rfl, rfl, rfl, rfl⟩

/-- C2: a parsed result whose intent is `trigger_conceptual_backend` with a
string `script_name` outside the 11-entry allow-list (compared lowercased)
is discarded for the `ask_ai` fallback over the raw command, and likewise
for `trigger_snapshot_action` against the 2-entry allow-list. -/
theorem classifier_allowlist_coercion
    (nluC nluS : NLUOutput) (rawC rawS scriptName action : String)
    (hCi : nluC.intent = "trigger_conceptual_backend")
    (hCp : getStrParam nluC "script_name" = some scriptName)
    (hCn : validConceptualCommands.contains (jsToLower scriptName) = false)
    (hSi : nluS.intent = "trigger_snapshot_action")
    (hSp : getStrParam nluS "action" = some action)
    (hSn : validSnapshotActions.contains (jsToLower action) = false) :
    analyzeNaturalLanguageCommand true (NLUResponse.parsed nluC) rawC = askAiFallback rawC
    ∧ analyzeNaturalLanguageCommand true (NLUResponse.parsed nluS) rawS = askAiFallback rawS
    ∧ (askAiFallback rawC).intent = "ask_ai"
    ∧ getStrParam (askAiFallback rawC) "query" = some rawC
    ∧ (askAiFallback rawC).nuance = some "general" := by
  refine ⟨?_, ?_, rfl, rfl, rfl⟩
  · show validateNLUOutput nluC rawC = askAiFallback rawC
    unfold validateNLUOutput
    rw [hCi, hCp]
    show (if validConceptualCommands.contains (jsToLower scriptName) = true then nluC
          else askAiFallback rawC) = askAiFallback rawC
    rw [hCn]
    simp
  · show validateNLUOutput nluS rawS = askAiFallback rawS
    unfold validateNLUOutput
    rw [hSi, hSp]
    show (if validSnapshotActions.contains (jsToLower action) = true then nluS
          else askAiFallback rawS) = askAiFallback rawS
    rw [hSn]
    simp

/-- Witness for `classifier_allowlist_coercion` at two concrete
hallucinated replies. -/
theorem classifier_allowlist_coercion_witness :
    (hallucinatedConceptual.intent = "trigger_conceptual_backend"
     ∧ getStrParam hallucinatedConceptual "script_name" = some "HackTheMainframe"
     ∧ validConceptualCommands.contains (jsToLower "HackTheMainframe") = false
     ∧ hallucinatedSnapshot.intent = "trigger_snapshot_action"
     ∧ getStrParam hallucinatedSnapshot "action" = some "bogus"
     ∧ validSnapshotActions.contains (jsToLower "bogus") = false)
    ∧ analyzeNaturalLanguageCommand true (NLUResponse.parsed hallucinatedConceptual) "hack it"
        = askAiFallback "hack it" :=
  ⟨⟨rfl, rfl, by decide, rfl, rfl, by decide⟩,
   (classifier_allowlist_coercion hallucinatedConceptual hallucinatedSnapshot
      "hack it" "snap it" "HackTheMainframe" "bogus"
      rfl rfl (by decide) rfl rfl (by decide)).1⟩

/-- C3 fails on the code: a parsed reply with the invented intent
"summon_banana" is returned verbatim (not coerced to `ask_ai`), and the
API-inactive path returns the intent "System Error", also outside the
closed set. -/
theorem classifier_intent_escapes_closed_set :
    analyzeNaturalLanguageCommand true (NLUResponse.parsed bananaOutput) "hello" = bananaOutput
    ∧ supportedIntents.contains bananaOutput.intent = false
    ∧ (bananaOutput.intent == "ask_ai") = false
    ∧ analyzeNaturalLanguageCommand false (NLUResponse.parsed bananaOutput) "hello" = systemErrorOutput
    ∧ supportedIntents.contains systemErrorOutput.intent = false
    ∧ (systemErrorOutput.intent == "ask_ai") = false :=
  ⟨rfl, by decide, by decide, rfl, by decide, by decide⟩

/-- The validation step either passes the parsed reply through verbatim or
replaces it with the `ask_ai` fallback. -/
theorem validateNLUOutput_cases (nluOutput : NLUOutput) (rawCommand : String) :
    validateNLUOutput nluOutput rawCommand = nluOutput
    ∨ validateNLUOutput nluOutput rawCommand = askAiFallback rawCommand := by
  unfold validateNLUOutput
  split
  · split
    · split
      · exact Or.inl rfl
      · exact Or.inr rfl
    · exact Or.inl rfl
  · split
    · split
      · split
        · exact Or.inl rfl
        · exact Or.inr rfl
      · exact Or.inl rfl
    · exact Or.inl rfl

/-- C3 amended: every result `analyzeNaturalLanguageCommand` returns is the
fixed "System Error" result (API inactive), a result with the fallback
intent `ask_ai`, or the parsed model reply returned verbatim — arbitrary
intents outside the two validated ones pass through unchanged, to be
handled by the dispatcher's default branch. -/
theorem classifier_result_trichotomy (isGeminiActive : Bool) (response : NLUResponse)
    (rawCommand : String) :
    analyzeNaturalLanguageCommand isGeminiActive response rawCommand = systemErrorOutput
    ∨ (analyzeNaturalLanguageCommand isGeminiActive response rawCommand).intent = "ask_ai"
    ∨ ∃ output, response = NLUResponse.parsed output
        ∧ analyzeNaturalLanguageCommand isGeminiActive response rawCommand = output := by
  cases isGeminiActive with
  | false => exact Or.inl rfl
  | true =>
    cases response with
    | throws e => exact Or.inr (Or.inl rfl)
    | unparseable e => exact Or.inr (Or.inl rfl)
    | parsed output =>
      rcases validateNLUOutput_cases output rawCommand with h | h
      · exact Or.inr (Or.inr ⟨output, rfl, h⟩)
      · refine Or.inr (Or.inl ?_)
        show (validateNLUOutput output rawCommand).intent = "ask_ai"
        rw [h]
        rfl

/-- C5: when `clarificationNeeded` is set, dispatch appends exactly the
clarification message and returns: no intent branch runs, the profile and
the live-session flag are untouched, and no collaborator is called. -/
theorem clarification_short_circuit (env : DispatchEnv) (st : DispatchState)
    (nluResult : NLUOutput) (rawCommand : String)
    (h : nluResult.clarificationNeeded = true) :
    dispatchNLU env st nluResult rawCommand =
      (appendMsg st (sysMsg "clarify-"
          ("Clarification needed: " ++ nluResult.clarificationMessage.getD "Please provide more details.")
          env.now "nlu-clarification"),
       noEffects)
    ∧ (dispatchNLU env st nluResult rawCommand).1.terminalOutput
        = st.terminalOutput
          ++ [sysMsg "clarify-"
                ("Clarification needed: " ++ nluResult.clarificationMessage.getD "Please provide more details.")
                env.now "nlu-clarification"]
    ∧ (dispatchNLU env st nluResult rawCommand).1.currentUserProfile = st.currentUserProfile
    ∧ (dispatchNLU env st nluResult rawCommand).1.liveSessionActive = st.liveSessionActive
    ∧ (dispatchNLU env st nluResult rawCommand).2 = noEffects := by
  have h1 : dispatchNLU env st nluResult rawCommand =
      (appendMsg st (sysMsg "clarify-"
          ("Clarification needed: " ++ nluResult.clarificationMessage.getD "Please provide more details.")
          env.now "nlu-clarification"),
       noEffects) := by
    unfold dispatchNLU
    rw [h]
    rfl
  exact ⟨h1, by rw [h1]; rfl, by rw [h1]; rfl, by rw [h1]; rfl, by rw [h1]⟩

/-- Witness for `clarification_short_circuit` at a concrete flagged reply. -/
theorem clarification_short_circuit_witness :
    clarifyOutput.clarificationNeeded = true
    ∧ (dispatchNLU chainEnv initialDispatchState clarifyOutput "do the thing").2 = noEffects :=
  ⟨rfl,
   (clarification_short_circuit chainEnv initialDispatchState clarifyOutput "do the thing" rfl).2.2.2.2⟩

/-- C6: the audio-session actions are idempotent guards. Dispatching
`start_live_session` while a session is active appends exactly one error
message, leaves the state otherwise unchanged (so at most one session is
ever active) and makes no collaborator call — in particular the
audio-session start is not called; dispatching `end_live_session` while no
session is active appends an error message and performs no stop. -/
theorem live_session_guards (env : DispatchEnv) (stActive stIdle : DispatchState)
    (nluStart nluEnd : NLUOutput) (rawStart rawEnd : String)
    (hSi : nluStart.intent = "start_live_session")
    (hSc : nluStart.clarificationNeeded = false)
    (hEi : nluEnd.intent = "end_live_session")
    (hEc : nluEnd.clarificationNeeded = false)
    (hA : stActive.liveSessionActive = true)
    (hI : stIdle.liveSessionActive = false) :
    dispatchNLU env stActive nluStart rawStart =
      (appendMsg stActive (sysMsg "err-" "Error: Live session already active. Use `endlive` to stop." env.now "error"),
       noEffects)
    ∧ (dispatchNLU env stActive nluStart rawStart).2.startLiveCalls = 0
    ∧ (dispatchNLU env stActive nluStart rawStart).1.liveSessionActive = true
    ∧ dispatchNLU env stIdle nluEnd rawEnd =
      (appendMsg stIdle (sysMsg "err-" "Error: No live session active. Use `startlive` to begin." env.now "error"),
       noEffects)
    ∧ (dispatchNLU env stIdle nluEnd rawEnd).2.closeLiveCalls = 0
    ∧ (dispatchNLU env stIdle nluEnd rawEnd).1.liveSessionActive = false := by
  have h1 : dispatchNLU env stActive nluStart rawStart =
      (appendMsg stActive (sysMsg "err-" "Error: Live session already active. Use `endlive` to stop." env.now "error"),
       noEffects) := by
    unfold dispatchNLU dispatchIntent
    rw [hSc, hSi, hA]
    rfl
  have h2 : dispatchNLU env stIdle nluEnd rawEnd =
      (appendMsg stIdle (sysMsg "err-" "Error: No live session active. Use `startlive` to begin." env.now "error"),
       noEffects) := by
    unfold dispatchNLU dispatchIntent
    rw [hEc, hEi, hI]
    rfl
  refine ⟨h1, by rw [h1]; rfl, ?_, h2, by rw [h2]; rfl, ?_⟩
  · rw [h1]
    show stActive.liveSessionActive = true
    exact hA
  · rw [h2]
    show stIdle.liveSessionActive = false
    exact hI

/-- Witness for `live_session_guards`: a second `start` while active makes
no collaborator start call and leaves exactly one session active; an `end`
while idle performs no stop. -/
theorem live_session_guards_witness :
    startLiveOutput.intent = "start_live_session"
    ∧ activeSessionState.liveSessionActive = true
    ∧ initialDispatchState.liveSessionActive = false
    ∧ (dispatchNLU chainEnv activeSessionState startLiveOutput "startlive").2.startLiveCalls = 0
    ∧ (dispatchNLU chainEnv initialDispatchState endLiveOutput "endlive").2.closeLiveCalls = 0 :=
  ⟨rfl, rfl, rfl,
   (live_session_guards chainEnv activeSessionState initialDispatchState
      startLiveOutput endLiveOutput "startlive" "endlive"
      rfl rfl rfl rfl rfl rfl).2.1,
   (live_session_guards chainEnv activeSessionState initialDispatchState
      startLiveOutput endLiveOutput "startlive" "endlive"
      rfl rfl rfl rfl rfl rfl).2.2.2.2.1⟩

/-- C8: the `switch_profile` branch. If the `profile_id` parameter matches
an entry of the fixed profile set, the current profile is replaced by that
entry and a system message naming it is appended; otherwise an error
message listing every valid profile id is appended and the profile is
unchanged. -/
theorem switch_profile_dispatch (env : DispatchEnv) (st : DispatchState)
    (nluResult : NLUOutput) (rawCommand : String) (newProfile : UserProfile)
    (hi : nluResult.intent = "switch_profile")
    (hc : nluResult.clarificationNeeded = false) :
    (USER_PROFILES.find? (fun p => some p.id = getStrParam nluResult "profile_id") = some newProfile →
      dispatchNLU env st nluResult rawCommand =
        ({ appendMsg st (sysMsg "profile-switch-"
              ("User profile switched to: " ++ newProfile.name ++ " (" ++ newProfile.avatar ++ ").")
              env.now "system-message") with currentUserProfile := newProfile },
         { noEffects with lookingGlassTitles := ["User Profile: Active"] }))
    ∧ (USER_PROFILES.find? (fun p => some p.id = getStrParam nluResult "profile_id") = none →
      dispatchNLU env st nluResult rawCommand =
        (appendMsg st (sysMsg "profile-err-"
            ("Error: Profile '" ++ (getStrParam nluResult "profile_id").getD "undefined"
              ++ "' not found. Available profiles: "
              ++ String.intercalate ", " (USER_PROFILES.map (fun (p : UserProfile) => p.id)) ++ ".")
            env.now "error"),
         noEffects)
        ∧ (dispatchNLU env st nluResult rawCommand).1.currentUserProfile = st.currentUserProfile) := by
  constructor
  · intro hf
    unfold dispatchNLU dispatchIntent
    rw [hc, hi]
    show (match USER_PROFILES.find? (fun p => some p.id = getStrParam nluResult "profile_id") with
      | some newProfile =>
        ({ appendMsg st (sysMsg "profile-switch-"
              ("User profile switched to: " ++ newProfile.name ++ " (" ++ newProfile.avatar ++ ").")
              env.now "system-message") with currentUserProfile := newProfile },
         { noEffects with lookingGlassTitles := ["User Profile: Active"] })
      | none =>
        (appendMsg st (sysMsg "profile-err-"
            ("Error: Profile '" ++ (getStrParam nluResult "profile_id").getD "undefined"
              ++ "' not found. Available profiles: "
              ++ String.intercalate ", " (USER_PROFILES.map (fun (p : UserProfile) => p.id)) ++ ".")
            env.now "error"),
         noEffects)) = _
    rw [hf]
  · intro hf
    have h1 : dispatchNLU env st nluResult rawCommand =
        (appendMsg st (sysMsg "profile-err-"
            ("Error: Profile '" ++ (getStrParam nluResult "profile_id").getD "undefined"
              ++ "' not found. Available profiles: "
              ++ String.intercalate ", " (USER_PROFILES.map (fun (p : UserProfile) => p.id)) ++ ".")
            env.now "error"),
         noEffects) := by
      unfold dispatchNLU dispatchIntent
      rw [hc, hi]
      show (match USER_PROFILES.find? (fun p => some p.id = getStrParam nluResult "profile_id") with
        | some newProfile =>
          ({ appendMsg st (sysMsg "profile-switch-"
                ("User profile switched to: " ++ newProfile.name ++ " (" ++ newProfile.avatar ++ ").")
                env.now "system-message") with currentUserProfile := newProfile },
           { noEffects with lookingGlassTitles := ["User Profile: Active"] })
        | none =>
          (appendMsg st (sysMsg "profile-err-"
              ("Error: Profile '" ++ (getStrParam nluResult "profile_id").getD "undefined"
                ++ "' not found. Available profiles: "
                ++ String.intercalate ", " (USER_PROFILES.map (fun (p : UserProfile) => p.id)) ++ ".")
              env.now "error"),
           noEffects)) = _
      rw [hf]
    exact ⟨h1, by rw [h1]; rfl⟩

/-- Witness for `switch_profile_dispatch`: `profile unknown_id` leaves the
profile unchanged, `profile bleak` installs the bleak entry. -/
theorem switch_profile_dispatch_witness :
    unknownProfileProbe.intent = "switch_profile"
    ∧ (dispatchNLU chainEnv initialDispatchState unknownProfileProbe "profile unknown_id").1.currentUserProfile
        = initialDispatchState.currentUserProfile
    ∧ (dispatchNLU chainEnv initialDispatchState bleakProfileProbe "profile bleak").1.currentUserProfile
        = bleakProfile :=
  ⟨rfl,
   ((switch_profile_dispatch chainEnv initialDispatchState unknownProfileProbe
       "profile unknown_id" bleakProfile rfl rfl).2 (by decide)).2,
   by
     rw [(switch_profile_dispatch chainEnv initialDispatchState bleakProfileProbe
       "profile bleak" bleakProfile rfl rfl).1 (by decide)]⟩

/-- C4 fails on the code: under the classifier reply sequence that always
answers with the `jailbreak_protocol` intent, each dispatch cycle re-submits
`handleCommandSubmit("jailbreak_protocol")`, so the chain of re-entrant
dispatches never runs to completion (there is no recursion guard). -/
theorem jailbreak_reentry_never_completes : jailbreakChainNeverCompletes := by
  intro n
  induction n with
  | zero => decide
  | succ n ih =>
    show (chainPending jailbreakOracle "jailbreak_protocol" n).bind
        (chainStep (jailbreakOracle n)) = some "jailbreak_protocol"
    rw [ih]
    show chainStep (NLUResponse.parsed jailbreakOutput) "jailbreak_protocol"
        = some "jailbreak_protocol"
    decide

/-- Once the pending command is gone, it stays gone. -/
theorem chainPending_none_succ (oracle : Nat → NLUResponse) (command : String) (n : Nat)
    (h : chainPending oracle command n = none) :
    chainPending oracle command (n + 1) = none := by
  show (chainPending oracle command n).bind (chainStep (oracle n)) = none
  rw [h]
  rfl

/-- C4 amended: each single `handleCommandSubmit` invocation terminates (the
re-entrant calls are fired without being awaited), and the chain of
re-entrant dispatches completes as soon as some classifier reply does not
re-enter dispatch; it need not complete under a classifier that answers
with a re-entrant intent forever (`jailbreak_reentry_never_completes`). -/
theorem reentry_chain_completes (oracle : Nat → NLUResponse) (command : String) (k : Nat)
    (h : ∀ c, chainStep (oracle k) c = none) :
    ∀ m, chainPending oracle command (k + 1 + m) = none := by
  intro m
  induction m with
  | zero =>
    show (chainPending oracle command k).bind (chainStep (oracle k)) = none
    cases hk : chainPending oracle command k with
    | none => rfl
    | some c => exact h c
  | succ m ih => exact chainPending_none_succ oracle command (k + 1 + m) ih

/-- Witness for `reentry_chain_completes`: under a classifier that answers
`clear`, the chain is done after the first cycle. -/
theorem reentry_chain_completes_witness :
    (∀ c, chainStep (clearOracle 0) c = none)
    ∧ chainPending clearOracle "clear" 1 = none :=
  ⟨fun _ => rfl, reentry_chain_completes clearOracle "clear" 0 (fun _ => rfl) 0⟩

/-- Decoding a base64 digit recovers the sextet, and no digit is the
padding character. -/
theorem sextet_roundtrip : ∀ s : Nat, s < 64 →
    charToSextet (sextetToChar s) = s ∧ sextetToChar s ≠ '=' := by decide

/-- `atob` inverts `btoa` on byte lists (all entries below 256). -/
theorem atob_btoa_roundtrip : ∀ bytes : List Nat, (∀ b ∈ bytes, b < 256) →
    atobChars (btoaBytes bytes) = bytes
  | [], _ => rfl
  | [b1], h => by
    have hb1 : b1 < 256 := h b1 (by simp)
    show [charToSextet (sextetToChar (b1 / 4)) * 4
        + charToSextet (sextetToChar (b1 % 4 * 16)) / 16] = [b1]
    rw [(sextet_roundtrip (b1 / 4) (by omega)).1,
        (sextet_roundtrip (b1 % 4 * 16) (by omega)).1]
    have e1 : b1 / 4 * 4 + b1 % 4 * 16 / 16 = b1 := by omega
    rw [e1]
  | [b1, b2], h => by
    have hb1 : b1 < 256 := h b1 (by simp)
    have hb2 : b2 < 256 := h b2 (by simp)
    show atobChars [sextetToChar (b1 / 4), sextetToChar (b1 % 4 * 16 + b2 / 16),
        sextetToChar (b2 % 16 * 4), '='] = [b1, b2]
    rw [atobChars]
    rw [if_neg (sextet_roundtrip (b2 % 16 * 4) (by omega)).2]
    rw [if_pos rfl]
    rw [(sextet_roundtrip (b1 / 4) (by omega)).1,
        (sextet_roundtrip (b1 % 4 * 16 + b2 / 16) (by omega)).1,
        (sextet_roundtrip (b2 % 16 * 4) (by omega)).1]
    have e1 : b1 / 4 * 4 + (b1 % 4 * 16 + b2 / 16) / 16 = b1 := by omega
    have e2 : (b1 % 4 * 16 + b2 / 16) % 16 * 16 + b2 % 16 * 4 / 4 = b2 := by omega
    rw [e1, e2]
  | b1 :: b2 :: b3 :: rest, h => by
    have hb1 : b1 < 256 := h b1 (by simp)
    have hb2 : b2 < 256 := h b2 (by simp)
    have hb3 : b3 < 256 := h b3 (by simp)
    have ih := atob_btoa_roundtrip rest (fun b hb => h b (by simp [hb]))
    show atobChars (sextetToChar (b1 / 4) :: sextetToChar (b1 % 4 * 16 + b2 / 16) ::
        sextetToChar (b2 % 16 * 4 + b3 / 64) :: sextetToChar (b3 % 64) :: btoaBytes rest)
      = b1 :: b2 :: b3 :: rest
    rw [atobChars]
    rw [if_neg (sextet_roundtrip (b2 % 16 * 4 + b3 / 64) (by omega)).2]
    rw [if_neg (sextet_roundtrip (b3 % 64) (by omega)).2]
    rw [(sextet_roundtrip (b1 / 4) (by omega)).1,
        (sextet_roundtrip (b1 % 4 * 16 + b2 / 16) (by omega)).1,
        (sextet_roundtrip (b2 % 16 * 4 + b3 / 64) (by omega)).1,
        (sextet_roundtrip (b3 % 64) (by omega)).1]
    rw [ih]
    have e1 : b1 / 4 * 4 + (b1 % 4 * 16 + b2 / 16) / 16 = b1 := by omega
    have e2 : (b1 % 4 * 16 + b2 / 16) % 16 * 16 + (b2 % 16 * 4 + b3 / 64) / 4 = b2 := by omega
    have e3 : (b2 % 16 * 4 + b3 / 64) % 4 * 64 + b3 % 64 = b3 := by omega
    rw [e1, e2, e3]

/-- `decode` inverts `encode` on byte arrays. -/
theorem decode_encode (bytes : List Nat) (h : ∀ b ∈ bytes, b < 256) :
    decode (encode bytes) = bytes := by
  show atobChars (String.mk (btoaBytes bytes)).toList = bytes
  have hmk : (String.mk (btoaBytes bytes)).toList = btoaBytes bytes := rfl
  rw [hmk]
  exact atob_btoa_roundtrip bytes h

/-- C9: the base64 helpers are mutually inverse — `decode (encode b) = b`
for every byte array `b`, and `encode (decode s) = s` for every string `s`
in the image of `encode`. -/
theorem base64_codec_inverse (bytes : List Nat) (s : String)
    (hb : ∀ b ∈ bytes, b < 256)
    (hs : ∃ bytes0, (∀ b ∈ bytes0, b < 256) ∧ s = encode bytes0) :
    decode (encode bytes) = bytes ∧ encode (decode s) = s := by
  refine ⟨decode_encode bytes hb, ?_⟩
  obtain ⟨bytes0, hb0, rfl⟩ := hs
  rw [decode_encode bytes0 hb0]

/-- Witness for `base64_codec_inverse` at concrete byte arrays. -/
theorem base64_codec_inverse_witness :
    (∀ b ∈ [0, 1, 77, 255, 100], b < 256)
    ∧ (∃ bytes0, (∀ b ∈ bytes0, b < 256) ∧ encode [77, 97, 110] = encode bytes0)
    ∧ decode (encode [0, 1, 77, 255, 100]) = [0, 1, 77, 255, 100]
    ∧ encode (decode (encode [77, 97, 110])) = encode [77, 97, 110] :=
  ⟨by decide, ⟨[77, 97, 110], by decide, rfl⟩,
   (base64_codec_inverse [0, 1, 77, 255, 100] (encode [77, 97, 110])
      (by decide) ⟨[77, 97, 110], by decide, rfl⟩).1,
   (base64_codec_inverse [0, 1, 77, 255, 100] (encode [77, 97, 110])
      (by decide) ⟨[77, 97, 110], by decide, rfl⟩).2⟩

/-- C10: `saveSnapshot` is an id-unique upsert. After the call the store
holds exactly one record with the new snapshot's id (the new record), every
other id's records are unchanged, and pairwise-distinct ids stay pairwise
distinct. -/
theorem saveSnapshot_upsert (snapshots : List AppSnapshot) (snapshot : AppSnapshot)
    (otherId : String) (hne : otherId ≠ snapshot.id)
    (hnd : (snapshots.map (fun (s : AppSnapshot) => s.id)).Nodup) :
    (saveSnapshot snapshots snapshot).filter (fun s => s.id = snapshot.id) = [snapshot]
    ∧ (saveSnapshot snapshots snapshot).filter (fun s => s.id = otherId)
        = snapshots.filter (fun s => s.id = otherId)
    ∧ ((saveSnapshot snapshots snapshot).map (fun (s : AppSnapshot) => s.id)).Nodup := by
  unfold saveSnapshot
  refine ⟨?_, ?_, ?_⟩
  · rw [List.filter_append]
    have h1 : (snapshots.filter (fun s => s.id ≠ snapshot.id)).filter
        (fun s => s.id = snapshot.id) = [] := by
      rw [List.filter_eq_nil_iff]
      intro a ha
      rw [List.mem_filter] at ha
      simpa using ha.2
    rw [h1]
    simp
  · rw [List.filter_append]
    have h2 : ([snapshot] : List AppSnapshot).filter (fun s => s.id = otherId) = [] := by
      simp [Ne.symm hne]
    rw [h2, List.append_nil, List.filter_filter]
    apply List.filter_congr
    intro a _
    by_cases hcase : a.id = otherId
    · simp [hcase, hne]
    · simp [hcase]
  · rw [List.map_append, List.nodup_append]
    refine ⟨List.Nodup.sublist (List.Sublist.map _ (List.filter_sublist snapshots)) hnd,
      List.nodup_singleton _, ?_⟩
    intro x hx
    rw [List.mem_map] at hx
    obtain ⟨a, ha, rfl⟩ := hx
    rw [List.mem_filter] at ha
    intro hcontra
    have heq : a.id = snapshot.id := by simpa using hcontra
    exact absurd heq (by simpa using ha.2)

/-- Witness for `saveSnapshot_upsert` at a concrete two-element store. -/
theorem saveSnapshot_upsert_witness :
    ("b" ≠ snapshotA2.id)
    ∧ ([snapshotA, snapshotB].map (fun (s : AppSnapshot) => s.id)).Nodup
    ∧ (saveSnapshot [snapshotA, snapshotB] snapshotA2).filter
        (fun s => s.id = snapshotA2.id) = [snapshotA2]
    ∧ ((saveSnapshot [snapshotA, snapshotB] snapshotA2).map
        (fun (s : AppSnapshot) => s.id)).Nodup :=
  ⟨by decide, by decide,
   (saveSnapshot_upsert [snapshotA, snapshotB] snapshotA2 "b" (by decide) (by decide)).1,
   (saveSnapshot_upsert [snapshotA, snapshotB] snapshotA2 "b" (by decide) (by decide)).2.2⟩
